import Mathlib

/-!
Shallow embedding of the two tool adapters of the weather-chatbot
repository: the weather-forecast tool (`src/lib/tools/weather.ts`,
`weatherTool.execute`) and the Python code runner
(`src/lib/tools/analyze.ts`, `analyzeTool.execute`).

JavaScript values flowing through the adapters (parsed JSON bodies,
per-day variable values) are modelled by `JVal`; thrown JavaScript
exceptions by `Thrown`; the `fetch` response object by `HttpResponse`;
the `spawnSync` result object by `SpawnResult`.  Each adapter body is a
total Lean function over those outcome types, and the surrounding
`try`/`catch` is made explicit with `Except Thrown`.
-/

set_option autoImplicit false

/-- JavaScript/JSON values as the adapters see them: `undef` models the
JavaScript `undefined` produced by out-of-range indexing or a missing
object property. -/
inductive JVal where
  | undef
  | null
  | bool (b : Bool)
  | num (n : Int)
  | str (s : String)
  | arr (elems : List JVal)
  | obj (fields : List (String × JVal))

/-- A JavaScript exception: either an `Error` instance carrying `name`
and `message`, or some thrown non-`Error` value. -/
inductive Thrown where
  | err (name msg : String)
  | nonError
deriving DecidableEq

/-- Property lookup `o?.k` on a JavaScript value: `none` models
`undefined`. -/
def JVal.getField : JVal → String → Option JVal
  | .obj fs, k => fs.findSome? (fun p => if p.1 = k then some p.2 else none)
  | _, _ => none

/-- Boolean test that `pre` is a prefix of `l`, mirroring character-wise
comparison of JavaScript strings. -/
def charsPrefix : List Char → List Char → Bool
  | [], _ => true
  | _ :: _, [] => false
  | a :: as, b :: bs => a == b && charsPrefix as bs

/-- Boolean substring test on character lists. -/
def charsContain (needle : List Char) : List Char → Bool
  | [] => charsPrefix needle []
  | c :: cs => charsPrefix needle (c :: cs) || charsContain needle cs

/-- JavaScript `hay.includes(needle)` (case-sensitive substring test). -/
def strContains (hay needle : String) : Bool :=
  charsContain needle.data hay.data

/-- JavaScript `s.toLowerCase()`. -/
def lowerStr (s : String) : String :=
  ⟨s.data.map Char.toLower⟩

/-- JavaScript `s.slice(0, n)`: the first `n` characters. -/
def strTake (s : String) (n : Nat) : String :=
  ⟨s.data.take n⟩

/-- JavaScript `s.trim()`: strip leading and trailing whitespace. -/
def jsTrim (s : String) : String :=
  ⟨((s.data.dropWhile Char.isWhitespace).reverse.dropWhile
      Char.isWhitespace).reverse⟩

/-- The `fetch` response as `weatherTool.execute` consumes it:
`ok`/`status`/`statusText` from the response object, the
`content-type` header (`none` when absent), and the outcomes of
`response.json()` and `response.text()` (which may throw). -/
structure HttpResponse where
  ok : Bool
  status : Nat
  statusText : String
  contentType : Option String
  jsonBody : Except Thrown JVal
  textBody : Except Thrown String

/-- One entry of the forecast array built in `weather.ts` lines 157-164:
`date` together with the five remapped per-variable values. -/
structure DailyEntry where
  date : String
  temperature_max : JVal
  temperature_min : JVal
  precipitation : JVal
  windspeed_max : JVal
  weathercode : JVal

/-- Placeholder entry used as the explicit default of `List.getD`. -/
def dummyEntry : DailyEntry :=
  ⟨"", .undef, .undef, .undef, .undef, .undef⟩

/-- Result value of `weatherTool.execute`: the error object shape
`{error, status?, statusText?, details?}` or the success object shape
`{latitude, longitude, forecast_days, forecast}`. -/
inductive WeatherResult where
  | err (message : String) (status : Option Nat) (statusText : Option String)
        (details : Option JVal)
  | ok (latitude longitude : Rat) (forecast_days : Int) (forecast : List DailyEntry)

/-- Keys of the success object literal returned by `weatherTool.execute`
(`weather.ts` lines 166-171). -/
def weatherSuccessFields : List String :=
  ["latitude", "longitude", "forecast_days", "forecast"]

/-- Keys of the `weatherTool.parameters` Zod schema (`weather.ts` lines
47-65). -/
def weatherParamFields : List String :=
  ["latitude", "longitude", "forecastDays"]

/-- Keys of each forecast entry object (`weather.ts` lines 157-164). -/
def forecastEntryFields : List String :=
  ["date", "temperature_max", "temperature_min", "precipitation",
   "windspeed_max", "weathercode"]

/-- Error message of `weather.ts` line 112: exact status code, and the
status text appended only when it is non-empty. -/
def httpErrorMessage (status : Nat) (statusText : String) : String :=
  "Weather API request failed: " ++ toString status ++
    (if statusText = "" then "" else " " ++ statusText)

/-- Best-effort error body of `weather.ts` lines 91-109: parsed JSON when
the content type contains "json" and parsing succeeds, otherwise the
non-empty body text sliced to 1000 characters, otherwise absent; body
read failures are swallowed. -/
def errorDetails (resp : HttpResponse) : Option JVal :=
  match (if strContains (resp.contentType.getD "") "json"
         then resp.jsonBody.toOption else none) with
  | some v => some v
  | none =>
    match resp.textBody with
    | .ok t => if t = "" then none else some (.str (strTake t 1000))
    | .error _ => none

/-- The non-ok branch of `weatherTool.execute` (`weather.ts` lines
90-119). -/
def httpErrorResult (resp : HttpResponse) : WeatherResult :=
  .err (httpErrorMessage resp.status resp.statusText)
    (some resp.status) (some resp.statusText) (errorDetails resp)

/-- Lookup `data?.daily?.k` (`weather.ts` lines 123-139). -/
def dailyField (data : JVal) (k : String) : Option JVal :=
  Option.bind (data.getField "daily") (fun j => j.getField k)

/-- Check `Array.isArray(time) && time.every(v => typeof v === "string")`
and extract the strings (`weather.ts` lines 126-129). -/
def allStrings : List JVal → Option (List String)
  | [] => some []
  | .str s :: rest => (allStrings rest).map (fun l => s :: l)
  | _ => none

/-- String-array view of an optional value (`none` when the value is
absent, not an array, or has a non-string element). -/
def asStringArray : Option JVal → Option (List String)
  | some (.arr xs) => allStrings xs
  | _ => none

/-- The per-field test of `weather.ts` line 150:
`!Array.isArray(values) || values.length !== time.length`. -/
def badArray (n : Nat) : Option JVal → Bool
  | some (.arr xs) => xs.length != n
  | _ => true

/-- The ordered `requiredArrays` entries of `weather.ts` lines 141-147. -/
def requiredPairs (data : JVal) : List (String × Option JVal) :=
  [("daily.temperature_2m_max", dailyField data "temperature_2m_max"),
   ("daily.temperature_2m_min", dailyField data "temperature_2m_min"),
   ("daily.precipitation_sum", dailyField data "precipitation_sum"),
   ("daily.windspeed_10m_max", dailyField data "windspeed_10m_max"),
   ("daily.weathercode", dailyField data "weathercode")]

/-- The validation loop of `weather.ts` lines 149-155: label of the first
missing or misaligned required array, if any. -/
def firstBad (n : Nat) : List (String × Option JVal) → Option String
  | [] => none
  | (l, v) :: rest => if badArray n v then some l else firstBad n rest

/-- Error message of `weather.ts` line 152. -/
def weatherMisalignedMsg (label : String) : String :=
  "Invalid response format from Open-Meteo API (" ++ label ++
    " missing or misaligned)"

/-- Error message of `weather.ts` line 131. -/
def weatherBadFormatMsg : String :=
  "Invalid response format from Open-Meteo API"

/-- Array view of an already-validated value (used only after the
validation loop guarantees the value is an array). -/
def arrOf : Option JVal → List JVal
  | some (.arr xs) => xs
  | _ => []

/-- The index-wise zip of `weather.ts` lines 157-164: driven by the date
array like `time.map`, indexing each variable array at the same
position (`undef` models JavaScript out-of-range indexing, which the
validation loop rules out). -/
def zipForecast : List String → List JVal → List JVal → List JVal →
    List JVal → List JVal → List DailyEntry
  | [], _, _, _, _, _ => []
  | d :: ds, as, bs, cs, ws, ks =>
    ⟨d, as.headD .undef, bs.headD .undef, cs.headD .undef,
       ws.headD .undef, ks.headD .undef⟩ ::
      zipForecast ds as.tail bs.tail cs.tail ws.tail ks.tail

/-- The success-status branch of `weatherTool.execute` after
`response.json()` succeeded (`weather.ts` lines 123-171). -/
def weatherOkBody (lat lon : Rat) (days : Int) (data : JVal) : WeatherResult :=
  match asStringArray (dailyField data "time") with
  | none => .err weatherBadFormatMsg none none none
  | some times =>
    match firstBad times.length (requiredPairs data) with
    | some label => .err (weatherMisalignedMsg label) none none none
    | none =>
      .ok lat lon days
        (zipForecast times
          (arrOf (dailyField data "temperature_2m_max"))
          (arrOf (dailyField data "temperature_2m_min"))
          (arrOf (dailyField data "precipitation_sum"))
          (arrOf (dailyField data "windspeed_10m_max"))
          (arrOf (dailyField data "weathercode")))

/-- The `try` body of `weatherTool.execute` (`weather.ts` lines 67-171):
a thrown fetch error or JSON-parse error propagates as `.error`. -/
def weatherTry (lat lon : Rat) (days : Int)
    (o : Except Thrown HttpResponse) : Except Thrown WeatherResult :=
  match o with
  | .error t => .error t
  | .ok resp =>
    if resp.ok = false then
      .ok (httpErrorResult resp)
    else
      match resp.jsonBody with
      | .error t => .error t
      | .ok data => .ok (weatherOkBody lat lon days data)

/-- The `catch` clause of `weatherTool.execute` (`weather.ts` lines
172-189): errors named "AbortError" become the timeout message, other
`Error` instances the generic network/runtime message. -/
def weatherCatch : Thrown → WeatherResult
  | .err name msg =>
    if name = "AbortError" then
      .err "Weather data request timed out. Please try again in a moment."
        none none none
    else
      .err ("Network or runtime error: " ++ msg) none none none
  | .nonError =>
    .err "Unknown error occurred while fetching weather data" none none none

/-- `weatherTool.execute` as a function from the fetch outcome to the
returned value. -/
def weatherExecute (lat lon : Rat) (days : Int)
    (o : Except Thrown HttpResponse) : WeatherResult :=
  match weatherTry lat lon days o with
  | .ok r => r
  | .error t => weatherCatch t

/-- `weatherTool.execute` seen at the exception level: the `catch`
converts every thrown error into a returned value. -/
def weatherToolCall (lat lon : Rat) (days : Int)
    (o : Except Thrown HttpResponse) : Except Thrown WeatherResult :=
  match weatherTry lat lon days o with
  | .ok r => .ok r
  | .error t => .ok (weatherCatch t)

/-- The `spawnSync` error object: Node's `ErrnoException`, with its
optional `code` and its `message`. -/
structure SpawnErr where
  code : Option String
  message : String

/-- The `spawnSync` return object as `analyzeTool.execute` consumes it
(`analyze.ts` lines 24-34): launch-level `error`, numeric exit
`status` (`none` when killed by a signal), the terminating `signal`,
and the captured `stdout`/`stderr` (options, mirroring `?? ""` and
`?.` in the source). -/
structure SpawnResult where
  error : Option SpawnErr
  status : Option Int
  signal : Option String
  stdout : Option String
  stderr : Option String

/-- The `{stdout, stderr, exitCode}` record returned by
`analyzeTool.execute`. -/
structure CodeExecutionResult where
  stdout : String
  stderr : String
  exitCode : Int
deriving DecidableEq

/-- Combined output cap passed to `spawnSync` (`analyze.ts` line 6). -/
def PYTHON_MAX_BUFFER : Nat := 1024 * 1024

/-- Wall-clock timeout passed to `spawnSync` (`analyze.ts` line 5). -/
def PYTHON_EXEC_TIMEOUT_MS : Nat := 10000

/-- The stderr message of the maxBuffer branch (`analyze.ts` line 74). -/
def maxBufferMsg : String :=
  "Python output exceeded maxBuffer (" ++ toString PYTHON_MAX_BUFFER ++ " bytes)"

/-- The stderr message of the ENOENT branch (`analyze.ts` lines 53-54). -/
def enoentMsg : String :=
  "Python interpreter not found (python3). Install Python 3 and ensure `python3` is on your PATH."

/-- The stderr message of the EACCES branch (`analyze.ts` lines 62-63). -/
def eaccesMsg : String :=
  "Permission denied when trying to run python3. Check file permissions or your environment setup."

/-- The synthesized stderr for signal termination (`analyze.ts` line 92). -/
def signalMsg (signal : Option String) : String :=
  "Python process terminated by signal " ++ signal.getD "unknown"

/-- The outcome classification of `analyzeTool.execute` (`analyze.ts`
lines 37-101): launch-level errors first (timeout, interpreter missing,
permission denied, output cap, generic), then signal termination, then
normal termination passed through unmodified. -/
def classifySpawn (r : SpawnResult) : CodeExecutionResult :=
  match r.error with
  | some e =>
    if e.code = some "ETIMEDOUT" then
      ⟨"", "Python execution timed out", 124⟩
    else if e.code = some "ENOENT" then
      ⟨"", enoentMsg, 127⟩
    else if e.code = some "EACCES" then
      ⟨"", eaccesMsg, 126⟩
    else if e.code = some "ERR_CHILD_PROCESS_STDIO_MAXBUFFER" ∨
        strContains (lowerStr e.message) "maxbuffer" = true then
      ⟨r.stdout.getD "", maxBufferMsg, 1⟩
    else
      ⟨"",
        (match e.code with
         | some c => if c = "" then e.message else c ++ ": " ++ e.message
         | none => e.message),
        1⟩
  | none =>
    match r.status with
    | none =>
      ⟨r.stdout.getD "",
        (match r.stderr with
         | some s => if jsTrim s = "" then signalMsg r.signal else jsTrim s
         | none => signalMsg r.signal),
        128⟩
    | some st => ⟨r.stdout.getD "", r.stderr.getD "", st⟩

/-- The `catch` clause of `analyzeTool.execute` (`analyze.ts` lines
102-112). -/
def analyzeCatch : Thrown → CodeExecutionResult
  | .err _ msg => ⟨"", "Unexpected error: " ++ msg, 1⟩
  | .nonError => ⟨"", "Unknown error occurred while executing Python code", 1⟩

/-- `analyzeTool.execute` as a function from the `spawnSync` outcome
(its return value, or a thrown exception) to the returned record. -/
def analyzeExecute (o : Except Thrown SpawnResult) : CodeExecutionResult :=
  match o with
  | .ok r => classifySpawn r
  | .error t => analyzeCatch t

/-- `analyzeTool.execute` seen at the exception level: the `catch`
converts every thrown error into a returned record. -/
def analyzeToolCall (o : Except Thrown SpawnResult) :
    Except Thrown CodeExecutionResult :=
  match o with
  | .ok r => .ok (classifySpawn r)
  | .error t => .ok (analyzeCatch t)


/-- A well-formed upstream body with a two-day forecast. -/
def dataSuccess : JVal :=
  .obj [("daily", .obj
    [("time", .arr [.str "2024-01-01", .str "2024-01-02"]),
     ("temperature_2m_max", .arr [.num 10, .num 12]),
     ("temperature_2m_min", .arr [.num 1, .num 2]),
     ("precipitation_sum", .arr [.num 0, .num 5]),
     ("windspeed_10m_max", .arr [.num 20, .num 30]),
     ("weathercode", .arr [.num 3, .num 61])])]

/-- An upstream body whose `temperature_2m_min` array is shorter than
the date array. -/
def dataMisaligned : JVal :=
  .obj [("daily", .obj
    [("time", .arr [.str "2024-01-01", .str "2024-01-02"]),
     ("temperature_2m_max", .arr [.num 10, .num 12]),
     ("temperature_2m_min", .arr [.num 1]),
     ("precipitation_sum", .arr [.num 0, .num 5]),
     ("windspeed_10m_max", .arr [.num 20, .num 30]),
     ("weathercode", .arr [.num 3, .num 61])])]

/-- A well-formed success response fixture with a two-day forecast. -/
def respSuccess : HttpResponse :=
  ⟨true, 200, "OK", some "application/json", .ok dataSuccess, .ok "body"⟩

/-- A success response fixture whose `temperature_2m_min` array is
shorter than the date array. -/
def respMisaligned : HttpResponse :=
  ⟨true, 200, "OK", some "application/json", .ok dataMisaligned, .ok "body"⟩

/-- A non-ok JSON response fixture (HTTP 404 with a parseable body). -/
def resp404 : HttpResponse :=
  ⟨false, 404, "Not Found", some "application/json",
   .ok (.obj [("reason", .str "Not found")]),
   .ok "\x7b\"reason\":\"Not found\"\x7d"⟩

/-- A non-ok response fixture whose body is empty text and whose JSON
parse fails. -/
def respEmptyBody : HttpResponse :=
  ⟨false, 500, "Internal Server Error", none,
   .error (.err "SyntaxError" "Unexpected end of JSON input"),
   .ok ""⟩

/-- A `spawnSync` outcome fixture: killed by a signal, whitespace-only
captured stderr. -/
def rSignalWs : SpawnResult :=
  ⟨none, none, some "SIGKILL", some "out", some " "⟩

/-! ### Helper lemmas -/

theorem headD_eq_getD_zero (l : List JVal) (d : JVal) : l.headD d = l.getD 0 d := by
  cases l <;> rfl

theorem tail_getD (l : List JVal) (i : Nat) (d : JVal) :
    l.tail.getD i d = l.getD (i + 1) d := by
  cases l <;> rfl

theorem zipForecast_length (ds : List String) :
    ∀ as bs cs ws ks : List JVal,
      (zipForecast ds as bs cs ws ks).length = ds.length := by
  induction ds with
  | nil => intro as bs cs ws ks; rfl
  | cons d ds ih => intro as bs cs ws ks; simp [zipForecast, ih]

theorem zipForecast_getD (ds : List String) :
    ∀ (as bs cs ws ks : List JVal) (i : Nat), i < ds.length →
      (zipForecast ds as bs cs ws ks).getD i dummyEntry =
        ⟨ds.getD i "", as.getD i .undef, bs.getD i .undef, cs.getD i .undef,
         ws.getD i .undef, ks.getD i .undef⟩ := by
  induction ds with
  | nil => intro as bs cs ws ks i h; simp at h
  | cons d ds ih =>
    intro as bs cs ws ks i h
    cases i with
    | zero =>
      have e1 : (zipForecast (d :: ds) as bs cs ws ks).getD 0 dummyEntry =
          ⟨d, as.headD .undef, bs.headD .undef, cs.headD .undef,
           ws.headD .undef, ks.headD .undef⟩ := rfl
      rw [e1, headD_eq_getD_zero as, headD_eq_getD_zero bs,
          headD_eq_getD_zero cs, headD_eq_getD_zero ws, headD_eq_getD_zero ks]
      rfl
    | succ i =>
      have h' : i < ds.length := by simpa using h
      calc (zipForecast (d :: ds) as bs cs ws ks).getD (i + 1) dummyEntry
          = (zipForecast ds as.tail bs.tail cs.tail ws.tail ks.tail).getD i
              dummyEntry := by simp [zipForecast]
        _ = _ := by
              rw [ih as.tail bs.tail cs.tail ws.tail ks.tail i h']
              simp [tail_getD]

theorem firstBad_spec (n : Nat) :
    ∀ ps : List (String × Option JVal),
      (∃ p ∈ ps, badArray n p.2 = true) →
      ∃ l, firstBad n ps = some l ∧
        ∃ p ∈ ps, p.1 = l ∧ badArray n p.2 = true := by
  intro ps
  induction ps with
  | nil => rintro ⟨p, hp, _⟩; simp at hp
  | cons q rest ih =>
    rintro ⟨p, hp, hbad⟩
    obtain ⟨l0, v0⟩ := q
    by_cases hq : badArray n v0 = true
    · exact ⟨l0, by simp [firstBad, hq], ⟨l0, v0⟩, by simp, rfl, hq⟩
    · have hp' : p ∈ rest := by
        rcases List.mem_cons.mp hp with h | h
        · exact absurd (by simpa [h] using hbad) hq
        · exact h
      obtain ⟨l, hfb, p', hp'', hfst, hbad'⟩ := ih ⟨p, hp', hbad⟩
      exact ⟨l, by simp [firstBad, hq, hfb],
        p', List.mem_cons_of_mem _ hp'', hfst, hbad'⟩

theorem weatherExecute_misaligned (lat lon : Rat) (days : Int)
    (resp : HttpResponse) (data : JVal) (ts : List String) (l : String)
    (hok : resp.ok = true)
    (hjson : resp.jsonBody = Except.ok data)
    (htime : asStringArray (dailyField data "time") = some ts)
    (hfb : firstBad ts.length (requiredPairs data) = some l) :
    weatherExecute lat lon days (Except.ok resp) =
      .err (weatherMisalignedMsg l) none none none := by
  simp only [weatherExecute, weatherTry, hok, hjson, weatherOkBody, htime, hfb]
  simp

theorem weatherExecute_success (lat lon : Rat) (days : Int)
    (resp : HttpResponse) (data : JVal) (ts : List String)
    (A B C W K : List JVal)
    (hok : resp.ok = true)
    (hjson : resp.jsonBody = Except.ok data)
    (htime : asStringArray (dailyField data "time") = some ts)
    (hA : dailyField data "temperature_2m_max" = some (JVal.arr A))
    (hB : dailyField data "temperature_2m_min" = some (JVal.arr B))
    (hC : dailyField data "precipitation_sum" = some (JVal.arr C))
    (hW : dailyField data "windspeed_10m_max" = some (JVal.arr W))
    (hK : dailyField data "weathercode" = some (JVal.arr K))
    (hlA : A.length = ts.length) (hlB : B.length = ts.length)
    (hlC : C.length = ts.length) (hlW : W.length = ts.length)
    (hlK : K.length = ts.length) :
    weatherExecute lat lon days (Except.ok resp) =
      .ok lat lon days (zipForecast ts A B C W K) := by
  have hfb : firstBad ts.length (requiredPairs data) = none := by
    simp [firstBad, requiredPairs, badArray, hA, hB, hC, hW, hK,
      hlA, hlB, hlC, hlW, hlK]
  simp only [weatherExecute, weatherTry, hok, hjson, weatherOkBody, htime, hfb]
  simp [arrOf, hA, hB, hC, hW, hK]

/-! ### Claim theorems -/

/-- C1: whenever the upstream success response has any of the five
required per-variable daily arrays absent, not an array, or of a length
different from the date array, `weatherTool.execute` returns the error
variant whose message names an offending field (the first in the source
order of `requiredArrays`), and never a success record. -/
theorem C1_misaligned_named_error (lat lon : Rat) (days : Int)
    (resp : HttpResponse) (data : JVal) (ts : List String)
    (hok : resp.ok = true)
    (hjson : resp.jsonBody = Except.ok data)
    (htime : asStringArray (dailyField data "time") = some ts)
    (hbad : ∃ p ∈ requiredPairs data, badArray ts.length p.2 = true) :
    ∃ l, (∃ p ∈ requiredPairs data, p.1 = l ∧ badArray ts.length p.2 = true) ∧
      weatherExecute lat lon days (Except.ok resp) =
        .err (weatherMisalignedMsg l) none none none ∧
      ∀ la lo d fc, weatherExecute lat lon days (Except.ok resp) ≠
        WeatherResult.ok la lo d fc := by
  obtain ⟨l, hfb, hwit⟩ := firstBad_spec ts.length (requiredPairs data) hbad
  have heq := weatherExecute_misaligned lat lon days resp data ts l hok hjson
    htime hfb
  refine ⟨l, hwit, heq, ?_⟩
  intro la lo d fc h
  rw [heq] at h
  exact WeatherResult.noConfusion h

/-- C1 witness: a concrete response whose `temperature_2m_min` array has
length 1 while the date array has length 2. -/
theorem C1_witness :
    ∃ l, (∃ p ∈ requiredPairs dataMisaligned,
        p.1 = l ∧ badArray (["2024-01-01", "2024-01-02"] : List String).length p.2 = true) ∧
      weatherExecute 0 0 3 (Except.ok respMisaligned) =
        .err (weatherMisalignedMsg l) none none none ∧
      ∀ la lo d fc, weatherExecute 0 0 3 (Except.ok respMisaligned) ≠
        WeatherResult.ok la lo d fc := by
  apply C1_misaligned_named_error 0 0 3 respMisaligned dataMisaligned
    ["2024-01-01", "2024-01-02"] rfl rfl rfl
  exact ⟨("daily.temperature_2m_min", dailyField dataMisaligned "temperature_2m_min"),
    by simp [requiredPairs], by rfl⟩

/-- C10: on the success path the forecast is the index-wise zip of the
upstream date array with the five variable arrays: its length is the
date-array length (with no reference to the requested `forecastDays`),
and entry `i` combines index `i` of the date array with index `i` of
each variable array. -/
theorem C10_alignment (lat lon : Rat) (days : Int)
    (resp : HttpResponse) (data : JVal) (ts : List String)
    (A B C W K : List JVal)
    (hok : resp.ok = true)
    (hjson : resp.jsonBody = Except.ok data)
    (htime : asStringArray (dailyField data "time") = some ts)
    (hA : dailyField data "temperature_2m_max" = some (JVal.arr A))
    (hB : dailyField data "temperature_2m_min" = some (JVal.arr B))
    (hC : dailyField data "precipitation_sum" = some (JVal.arr C))
    (hW : dailyField data "windspeed_10m_max" = some (JVal.arr W))
    (hK : dailyField data "weathercode" = some (JVal.arr K))
    (hlA : A.length = ts.length) (hlB : B.length = ts.length)
    (hlC : C.length = ts.length) (hlW : W.length = ts.length)
    (hlK : K.length = ts.length) :
    weatherExecute lat lon days (Except.ok resp) =
      .ok lat lon days (zipForecast ts A B C W K) ∧
    (zipForecast ts A B C W K).length = ts.length ∧
    ∀ i, i < ts.length →
      (zipForecast ts A B C W K).getD i dummyEntry =
        ⟨ts.getD i "", A.getD i .undef, B.getD i .undef, C.getD i .undef,
         W.getD i .undef, K.getD i .undef⟩ :=
  ⟨weatherExecute_success lat lon days resp data ts A B C W K hok hjson htime
      hA hB hC hW hK hlA hlB hlC hlW hlK,
   zipForecast_length ts A B C W K,
   fun i h => zipForecast_getD ts A B C W K i h⟩

/-- C10 witness: a two-day upstream response together with a request for
three forecast days: the forecast still has two entries, each combining
same-index elements. -/
theorem C10_witness :
    weatherExecute 35 139 3 (Except.ok respSuccess) =
      .ok 35 139 3
        (zipForecast ["2024-01-01", "2024-01-02"]
          [.num 10, .num 12] [.num 1, .num 2] [.num 0, .num 5]
          [.num 20, .num 30] [.num 3, .num 61]) ∧
    (zipForecast ["2024-01-01", "2024-01-02"]
        [.num 10, .num 12] [.num 1, .num 2] [.num 0, .num 5]
        [.num 20, .num 30] [.num 3, .num 61]).length = 2 ∧
    (zipForecast ["2024-01-01", "2024-01-02"]
        [.num 10, .num 12] [.num 1, .num 2] [.num 0, .num 5]
        [.num 20, .num 30] [.num 3, .num 61]).getD 1 dummyEntry =
      ⟨"2024-01-02", .num 12, .num 2, .num 5, .num 30, .num 61⟩ := by
  have h := C10_alignment 35 139 3 respSuccess dataSuccess
    ["2024-01-01", "2024-01-02"]
    [.num 10, .num 12] [.num 1, .num 2] [.num 0, .num 5]
    [.num 20, .num 30] [.num 3, .num 61]
    rfl rfl rfl rfl rfl rfl rfl rfl rfl rfl rfl rfl rfl
  exact ⟨h.1, h.2.1, h.2.2 1 (by decide)⟩

/-- C5 counterexample: at a concrete valid request and well-formed
success response, the success record built by the code is
`{latitude, longitude, forecast_days, forecast}` with no `daily` field
echoing requested variables, and the parameters schema offers no way to
request a variable subset (no `daily`/`dailyVariables` key). -/
theorem C5_counterexample :
    weatherExecute 35 139 3 (Except.ok respSuccess) =
      .ok 35 139 3
        [⟨"2024-01-01", .num 10, .num 1, .num 0, .num 20, .num 3⟩,
         ⟨"2024-01-02", .num 12, .num 2, .num 5, .num 30, .num 61⟩] ∧
    "daily" ∉ weatherSuccessFields ∧
    "daily" ∉ weatherParamFields ∧
    "dailyVariables" ∉ weatherParamFields :=
  ⟨by rfl, by decide, by decide, by decide⟩

/-- C5 (amended): for every valid request and well-formed upstream
success response, the success record is `{latitude, longitude,
forecast_days, forecast}` with the request values echoed; there is no
`daily` field and no parameter to request a variable subset; and every
forecast entry always carries the date together with all five remapped
output fields (`temperature_max`, `temperature_min`, `precipitation`,
`windspeed_max`, `weathercode`). -/
theorem C5_success_shape (lat lon : Rat) (days : Int)
    (resp : HttpResponse) (data : JVal) (ts : List String)
    (A B C W K : List JVal)
    (hlat₁ : -90 ≤ lat) (hlat₂ : lat ≤ 90)
    (hlon₁ : -180 ≤ lon) (hlon₂ : lon ≤ 180)
    (hd₁ : 1 ≤ days) (hd₂ : days ≤ 7)
    (hok : resp.ok = true)
    (hjson : resp.jsonBody = Except.ok data)
    (htime : asStringArray (dailyField data "time") = some ts)
    (hA : dailyField data "temperature_2m_max" = some (JVal.arr A))
    (hB : dailyField data "temperature_2m_min" = some (JVal.arr B))
    (hC : dailyField data "precipitation_sum" = some (JVal.arr C))
    (hW : dailyField data "windspeed_10m_max" = some (JVal.arr W))
    (hK : dailyField data "weathercode" = some (JVal.arr K))
    (hlA : A.length = ts.length) (hlB : B.length = ts.length)
    (hlC : C.length = ts.length) (hlW : W.length = ts.length)
    (hlK : K.length = ts.length) :
    weatherExecute lat lon days (Except.ok resp) =
      .ok lat lon days (zipForecast ts A B C W K) ∧
    (∀ i, i < ts.length →
      (zipForecast ts A B C W K).getD i dummyEntry =
        ⟨ts.getD i "", A.getD i .undef, B.getD i .undef, C.getD i .undef,
         W.getD i .undef, K.getD i .undef⟩) ∧
    "daily" ∉ weatherSuccessFields ∧
    "daily" ∉ weatherParamFields ∧
    forecastEntryFields =
      ["date", "temperature_max", "temperature_min", "precipitation",
       "windspeed_max", "weathercode"] :=
  ⟨weatherExecute_success lat lon days resp data ts A B C W K hok hjson htime
      hA hB hC hW hK hlA hlB hlC hlW hlK,
   fun i h => zipForecast_getD ts A B C W K i h,
   by decide, by decide, rfl⟩

/-- C5 witness: the amended statement instantiated at a concrete valid
request and the two-day success fixture. -/
theorem C5_witness :
    weatherExecute 35 139 3 (Except.ok respSuccess) =
      .ok 35 139 3
        (zipForecast ["2024-01-01", "2024-01-02"]
          [.num 10, .num 12] [.num 1, .num 2] [.num 0, .num 5]
          [.num 20, .num 30] [.num 3, .num 61]) ∧
    (zipForecast ["2024-01-01", "2024-01-02"]
        [.num 10, .num 12] [.num 1, .num 2] [.num 0, .num 5]
        [.num 20, .num 30] [.num 3, .num 61]).getD 0 dummyEntry =
      ⟨"2024-01-01", .num 10, .num 1, .num 0, .num 20, .num 3⟩ ∧
    "daily" ∉ weatherSuccessFields := by
  have h := C5_success_shape 35 139 3 respSuccess dataSuccess
    ["2024-01-01", "2024-01-02"]
    [.num 10, .num 12] [.num 1, .num 2] [.num 0, .num 5]
    [.num 20, .num 30] [.num 3, .num 61]
    (by decide) (by decide) (by decide) (by decide) (by decide) (by decide)
    rfl rfl rfl rfl rfl rfl rfl rfl rfl rfl rfl rfl rfl
  exact ⟨h.1, h.2.1 0 (by decide), h.2.2.1⟩

/-- C4 counterexample: a non-ok response whose body text is empty (and
whose JSON parse fails): the code returns `details` absent, while the
claim as stated would demand `details` equal to the (empty) body text
truncated to 1000 characters. -/
theorem C4_counterexample :
    weatherExecute 1 2 3 (Except.ok respEmptyBody) =
      .err "Weather API request failed: 500 Internal Server Error"
        (some 500) (some "Internal Server Error") none ∧
    (some (JVal.str (strTake "" 1000)) : Option JVal) ≠ none :=
  ⟨by rfl, by simp⟩

/-- C4 (amended): for every non-success HTTP status the result is an
error record carrying the exact status code and status text; `details`
is the unmodified parsed JSON body when the content type contains
"json" and the body parses; otherwise it is the non-empty body text
truncated to 1000 characters; when the body is empty or unreadable the
error record is still returned with `details` absent. -/
theorem C4_http_error_details (lat lon : Rat) (days : Int)
    (resp : HttpResponse) (hko : resp.ok = false) :
    (∀ j, strContains (resp.contentType.getD "") "json" = true →
      resp.jsonBody = Except.ok j →
      weatherExecute lat lon days (Except.ok resp) =
        .err (httpErrorMessage resp.status resp.statusText)
          (some resp.status) (some resp.statusText) (some j)) ∧
    (∀ t, resp.textBody = Except.ok t → t ≠ "" →
      (strContains (resp.contentType.getD "") "json" = false ∨
        ∃ e, resp.jsonBody = Except.error e) →
      weatherExecute lat lon days (Except.ok resp) =
        .err (httpErrorMessage resp.status resp.statusText)
          (some resp.status) (some resp.statusText)
          (some (JVal.str (strTake t 1000)))) ∧
    ((strContains (resp.contentType.getD "") "json" = false ∨
        ∃ e, resp.jsonBody = Except.error e) →
      (resp.textBody = Except.ok "" ∨ ∃ e, resp.textBody = Except.error e) →
      weatherExecute lat lon days (Except.ok resp) =
        .err (httpErrorMessage resp.status resp.statusText)
          (some resp.status) (some resp.statusText) none) := by
  have hbase : weatherExecute lat lon days (Except.ok resp) =
      httpErrorResult resp := by
    simp [weatherExecute, weatherTry, hko]
  refine ⟨?_, ?_, ?_⟩
  · intro j hct hjson
    rw [hbase]
    simp [httpErrorResult, errorDetails, hct, hjson, Except.toOption]
  · intro t htext hne hjson
    rw [hbase]
    rcases hjson with hct | ⟨e, hje⟩
    · simp [httpErrorResult, errorDetails, hct, htext, hne]
    · by_cases hct : strContains (resp.contentType.getD "") "json" = true
      · simp [httpErrorResult, errorDetails, hct, hje, htext, hne, Except.toOption]
      · simp at hct
        simp [httpErrorResult, errorDetails, hct, htext, hne]
  · intro hjson htext
    rw [hbase]
    have hdet : errorDetails resp = none := by
      have hnoj : (if strContains (resp.contentType.getD "") "json"
          then resp.jsonBody.toOption else none) = none := by
        rcases hjson with hct | ⟨e, hje⟩
        · simp [hct]
        · simp [hje, Except.toOption]
      rcases htext with ht | ⟨e, ht⟩ <;> simp [errorDetails, hnoj, ht]
    simp [httpErrorResult, hdet]

/-- C4 witness: a concrete 404 JSON response: the error record carries
the exact status, status text, and the unmodified parsed body. -/
theorem C4_witness :
    weatherExecute 1 2 3 (Except.ok resp404) =
      .err "Weather API request failed: 404 Not Found"
        (some 404) (some "Not Found")
        (some (JVal.obj [("reason", JVal.str "Not found")])) := by
  have h := (C4_http_error_details 1 2 3 resp404 rfl).1
    (JVal.obj [("reason", JVal.str "Not found")]) (by decide) rfl
  exact h

/-- C2: for every outcome of the underlying effect (response, thrown
network error, thrown parse error, spawn result, thrown spawn
exception), both tool `execute` functions return a structured result —
seen at the exception level, the composed try/catch never propagates an
exception. -/
theorem C2_no_throw (lat lon : Rat) (days : Int)
    (o : Except Thrown HttpResponse) (o₂ : Except Thrown SpawnResult) :
    (weatherToolCall lat lon days o).isOk = true ∧
    (analyzeToolCall o₂).isOk = true := by
  constructor
  · cases h : weatherTry lat lon days o <;>
      simp [weatherToolCall, h, Except.isOk, Except.toBool]
  · cases o₂ <;> simp [analyzeToolCall, Except.isOk, Except.toBool]

/-- C3: the timeout classification of `weatherTool.execute` matches only
cancellation errors whose `name` is "AbortError" (independently of the
message text); the cancellation error actually produced by
`AbortSignal.timeout` on the supported runtime is named "TimeoutError",
and the code maps it to the generic network/runtime message instead of
the distinct timeout message. -/
theorem C3_timeout_misclassified :
    weatherExecute 35 139 3
        (Except.error (.err "TimeoutError"
          "The operation was aborted due to timeout")) =
      .err "Network or runtime error: The operation was aborted due to timeout"
        none none none ∧
    (∀ m, weatherExecute 35 139 3 (Except.error (.err "AbortError" m)) =
      .err "Weather data request timed out. Please try again in a moment."
        none none none) :=
  ⟨rfl, fun _ => rfl⟩

/-- C6: a spawn outcome whose launch-level error carries code
"ETIMEDOUT" (the 10-second wall-clock deadline) yields exactly
`{stdout: "", stderr: "Python execution timed out", exitCode: 124}`,
whatever else the spawn result contains. -/
theorem C6_timeout_124 (r : SpawnResult) (e : SpawnErr)
    (he : r.error = some e) (hc : e.code = some "ETIMEDOUT") :
    analyzeExecute (Except.ok r) = ⟨"", "Python execution timed out", 124⟩ := by
  simp [analyzeExecute, classifySpawn, he, hc]

/-- C6 witness: a concrete timed-out spawn result with captured partial
output that is still discarded. -/
theorem C6_witness :
    analyzeExecute (Except.ok
        ⟨some ⟨some "ETIMEDOUT", "spawnSync python3 ETIMEDOUT"⟩,
         none, some "SIGTERM", some "partial", some ""⟩) =
      ⟨"", "Python execution timed out", 124⟩ :=
  C6_timeout_124
    ⟨some ⟨some "ETIMEDOUT", "spawnSync python3 ETIMEDOUT"⟩,
     none, some "SIGTERM", some "partial", some ""⟩
    ⟨some "ETIMEDOUT", "spawnSync python3 ETIMEDOUT"⟩ rfl rfl

/-- C7: launch-level failures are classified before any exit status is
inspected (the conclusion holds for arbitrary `status`, `signal` and
captured output): ENOENT yields 127 with the explanatory message,
EACCES yields 126, and any other launch failure outside the dedicated
timeout and maxBuffer branches yields 1 with the underlying system
error code and message surfaced in stderr. -/
theorem C7_launch_classification (r : SpawnResult) (e : SpawnErr)
    (he : r.error = some e) :
    (e.code = some "ENOENT" →
      analyzeExecute (Except.ok r) = ⟨"", enoentMsg, 127⟩) ∧
    (e.code = some "EACCES" →
      analyzeExecute (Except.ok r) = ⟨"", eaccesMsg, 126⟩) ∧
    (e.code ≠ some "ETIMEDOUT" → e.code ≠ some "ENOENT" →
     e.code ≠ some "EACCES" →
     e.code ≠ some "ERR_CHILD_PROCESS_STDIO_MAXBUFFER" →
     strContains (lowerStr e.message) "maxbuffer" = false →
      analyzeExecute (Except.ok r) =
        ⟨"",
         (match e.code with
          | some c => if c = "" then e.message else c ++ ": " ++ e.message
          | none => e.message),
         1⟩) := by
  refine ⟨?_, ?_, ?_⟩
  · intro hc
    simp [analyzeExecute, classifySpawn, he, hc]
  · intro hc
    simp [analyzeExecute, classifySpawn, he, hc]
  · intro h₁ h₂ h₃ h₄ h₅
    simp [analyzeExecute, classifySpawn, he, h₁, h₂, h₃, h₄, h₅]

/-- C7 witness: a concrete launch failure with code "EAGAIN": exit code
1 and the system error code and message surfaced in stderr. -/
theorem C7_witness :
    analyzeExecute (Except.ok
        ⟨some ⟨some "EAGAIN", "spawn EAGAIN"⟩, some 0, none,
         some "out", some ""⟩) =
      ⟨"", "EAGAIN: spawn EAGAIN", 1⟩ := by
  have h := (C7_launch_classification
    ⟨some ⟨some "EAGAIN", "spawn EAGAIN"⟩, some 0, none, some "out", some ""⟩
    ⟨some "EAGAIN", "spawn EAGAIN"⟩ rfl).2.2
    (by decide) (by decide) (by decide) (by decide) (by decide)
  exact h

/-- C8: a launch-level error in the maxBuffer branch (code
ERR_CHILD_PROCESS_STDIO_MAXBUFFER, or a message containing "maxbuffer"
case-insensitively) yields exit code 1, preserves whatever partial
stdout was captured, and reports the buffer overflow in stderr. -/
theorem C8_maxbuffer_partial_stdout (r : SpawnResult) (e : SpawnErr)
    (he : r.error = some e)
    (h₁ : e.code ≠ some "ETIMEDOUT") (h₂ : e.code ≠ some "ENOENT")
    (h₃ : e.code ≠ some "EACCES")
    (h₄ : e.code = some "ERR_CHILD_PROCESS_STDIO_MAXBUFFER" ∨
      strContains (lowerStr e.message) "maxbuffer" = true) :
    analyzeExecute (Except.ok r) = ⟨r.stdout.getD "", maxBufferMsg, 1⟩ := by
  simp only [analyzeExecute, classifySpawn, he]
  rw [if_neg (by simpa using h₁), if_neg (by simpa using h₂),
    if_neg (by simpa using h₃), if_pos h₄]

/-- C8 witness: a concrete maxBuffer overflow preserving the captured
partial stdout. -/
theorem C8_witness :
    analyzeExecute (Except.ok
        ⟨some ⟨some "ERR_CHILD_PROCESS_STDIO_MAXBUFFER", "stdout maxBuffer length exceeded"⟩,
         none, some "SIGTERM", some "partial output", some ""⟩) =
      ⟨"partial output", maxBufferMsg, 1⟩ :=
  C8_maxbuffer_partial_stdout
    ⟨some ⟨some "ERR_CHILD_PROCESS_STDIO_MAXBUFFER", "stdout maxBuffer length exceeded"⟩,
     none, some "SIGTERM", some "partial output", some ""⟩
    ⟨some "ERR_CHILD_PROCESS_STDIO_MAXBUFFER", "stdout maxBuffer length exceeded"⟩
    rfl (by decide) (by decide) (by decide) (Or.inl rfl)

/-- C9 counterexample: when the subprocess is killed by a signal and the
captured stderr is non-empty but whitespace-only (" "), the code
returns the synthesized signal message, not the captured stderr the
claim promises for every non-empty stderr. -/
theorem C9_counterexample :
    analyzeExecute (Except.ok rSignalWs) =
      ⟨"out", "Python process terminated by signal SIGKILL", 128⟩ ∧
    analyzeExecute (Except.ok rSignalWs) ≠ ⟨"out", " ", 128⟩ :=
  ⟨by decide, by decide⟩

/-- C9 (amended): with no launch-level error, signal termination
(`status` null) yields exit code 128 with stderr equal to the trimmed
captured stderr when that trim is non-empty and to a synthesized
message naming the terminating signal (or "unknown") otherwise, while
normal termination returns the captured stdout, stderr and the actual
exit status unmodified (null output coalesced to ""). -/
theorem C9_signal_and_normal (r : SpawnResult) (he : r.error = none) :
    (∀ s, r.status = none → r.stderr = some s → jsTrim s ≠ "" →
      analyzeExecute (Except.ok r) = ⟨r.stdout.getD "", jsTrim s, 128⟩) ∧
    (r.status = none →
      (r.stderr = none ∨ ∃ s, r.stderr = some s ∧ jsTrim s = "") →
      analyzeExecute (Except.ok r) =
        ⟨r.stdout.getD "", signalMsg r.signal, 128⟩) ∧
    (∀ st, r.status = some st →
      analyzeExecute (Except.ok r) =
        ⟨r.stdout.getD "", r.stderr.getD "", st⟩) := by
  refine ⟨?_, ?_, ?_⟩
  · intro s hst hse hne
    simp [analyzeExecute, classifySpawn, he, hst, hse, hne]
  · intro hst hse
    rcases hse with hse | ⟨s, hse, htr⟩
    · simp [analyzeExecute, classifySpawn, he, hst, hse]
    · simp [analyzeExecute, classifySpawn, he, hst, hse, htr]
  · intro st hst
    simp [analyzeExecute, classifySpawn, he, hst]

/-- C9 witness: a concrete signal termination whose captured stderr
trims to a non-empty message, and which preserves the partial stdout. -/
theorem C9_witness :
    analyzeExecute (Except.ok
        ⟨none, none, some "SIGSEGV", some "partial", some " boom "⟩) =
      ⟨"partial", "boom", 128⟩ := by
  have h := (C9_signal_and_normal
    ⟨none, none, some "SIGSEGV", some "partial", some " boom "⟩ rfl).1
    " boom " rfl rfl (by decide)
  exact h
